import Mathlib

/-!
Verification of the influxdb metrics exporter
(`src/middleware/melody-influxdb/influxdb.go`).

The development shallowly embeds the export scheduler (`updateAndSendData`),
its registration path (`Register`) and the bounded retry buffer.  Point
converters (`counter.Points`, `gauge.Points`, `histogram.Points`), the metrics
source and the store client are external collaborators: they appear as
function parameters and oracles.  The store's write outcomes are an oracle
`store : Nat → Bool` consulted once per issued write, indexed by the number of
writes issued so far.
-/

namespace Influxdb

/-- A time-series point.  Opaque to the scheduler: only produced by the
point converters and carried through batches. -/
structure Point where
  id : Nat
deriving DecidableEq, Repr

/-- A counter sample of the metrics snapshot (opaque to the scheduler). -/
abbrev CounterSample := Nat

/-- A gauge sample of the metrics snapshot (opaque to the scheduler). -/
abbrev GaugeSample := Nat

/-- A histogram sample of the metrics snapshot (opaque to the scheduler). -/
abbrev HistogramSample := Nat

/-- `ginmetrics.Metrics.GetSnapshot()` result: counters, gauges, histograms
and a timestamp in nanoseconds since the epoch. -/
structure Snapshot where
  Counters : List CounterSample
  Gauges : List GaugeSample
  Histograms : List HistogramSample
  Time : Int
deriving DecidableEq, Repr

/-- `client.BatchPoints`: destination metadata plus the ordered points. -/
structure BatchPoints where
  database : String
  precision : String
  points : List Point
deriving DecidableEq, Repr

/-- `client.BatchPointsConfig`. -/
structure BatchPointsConfig where
  Precision : String
  Database : String
deriving DecidableEq, Repr

/-- `client.NewBatchPoints`: a fresh batch with no points.  The source
ignores the error return (its precisions are always the valid `"s"`). -/
def NewBatchPoints (c : BatchPointsConfig) : BatchPoints :=
  { database := c.Database, precision := c.Precision, points := [] }

/-- `bp.AddPoint(p)`: append one point. -/
def BatchPoints.AddPoint (bp : BatchPoints) (p : Point) : BatchPoints :=
  { bp with points := bp.points ++ [p] }

/-- `bp.AddPoints(ps)`: append a list of points. -/
def BatchPoints.AddPoints (bp : BatchPoints) (ps : List Point) : BatchPoints :=
  { bp with points := bp.points ++ ps }

/-- `bp.Points()`. -/
def BatchPoints.Points (bp : BatchPoints) : List Point :=
  bp.points

/-- Modelled from the spec: the repository's retry `Buffer` type is not among
the source files (only its construction and call sites in `influxdb.go` are);
per the spec it is a bounded ordered collection of previously-failed batches
with capacity fixed at construction. -/
@[ext]
structure Buffer where
  size : Nat
  data : List BatchPoints
deriving DecidableEq, Repr

/-- Modelled from the spec: `NewBuffer(size)` creates an empty buffer with
fixed capacity `size`. -/
def NewBuffer (size : Nat) : Buffer :=
  { size := size, data := [] }

/-- Modelled from the spec: `Add(batch...)` appends the given batches and
enforces the capacity invariant by dropping the oldest entries
(drop-oldest overflow policy): only the newest `size` batches are kept. -/
def Buffer.Add (b : Buffer) (vs : List BatchPoints) : Buffer :=
  let d := b.data ++ vs
  { size := b.size, data := d.drop (d.length - b.size) }

/-- Modelled from the spec: `Elements()` hands the ordered buffered batches to
the caller and leaves the buffer empty; whether they are re-inserted is the
caller's decision, driven by the outcome of the retry write (a successful
retry write leaves the buffer empty). -/
def Buffer.Elements (b : Buffer) : List BatchPoints × Buffer :=
  (b.data, { size := b.size, data := [] })

/-- `time.Unix(sec, nsec)` as an instant in nanoseconds since the epoch. -/
def timeUnix (sec nsec : Int) : Int :=
  sec * 1000000000 + nsec

/-- The send-worthiness test of `updateAndSendData`:
`len(snapshot.Counters) > 0 || len(snapshot.Gauges) > 0`. -/
def shouldSend (s : Snapshot) : Bool :=
  0 < s.Counters.length || 0 < s.Gauges.length

/-- The scheduler's collaborators: the configured database name and the three
point converters (black boxes receiving the hostname, the wall-clock instant
and the snapshot slice of their kind). -/
structure Env where
  db : String
  counterPoints : String → Int → List CounterSample → List Point
  gaugePoints : String → Int → List GaugeSample → List Point
  histogramPoints : String → Int → List HistogramSample → List Point

/-- Observable events of one run of the scheduler: log lines and the writes
issued to the store client, in program order. -/
inductive Event where
  | noData
  | cycleHost (host : String)
  | writeAttempt (bp : BatchPoints)
  | logSent (n : Nat)
  | errPrimary
  | errRetry
  | errHostname
deriving DecidableEq, Repr

/-- The primary batch one cycle builds: a fresh batch for the configured
database with precision `"s"`, to which the counter, gauge and histogram
points are added in that order, each converter receiving the hostname and
`time.Unix(0, snapshot.Time)`. -/
def primaryBatch (env : Env) (hostname : String) (s : Snapshot) : BatchPoints :=
  let now := timeUnix 0 s.Time
  let bp := NewBatchPoints { Precision := "s", Database := env.db }
  let bp := (env.counterPoints hostname now s.Counters).foldl BatchPoints.AddPoint bp
  let bp := (env.gaugePoints hostname now s.Gauges).foldl BatchPoints.AddPoint bp
  (env.histogramPoints hostname now s.Histograms).foldl BatchPoints.AddPoint bp

/-- The combined retry batch of the drain step: a fresh batch for the
configured database with precision `"s"` holding the concatenation of the
points of the pending batches, in order. -/
def drainBatch (env : Env) (pending : List BatchPoints) : BatchPoints :=
  (NewBatchPoints { Database := env.db, Precision := "s" }).AddPoints
    ((pending.map BatchPoints.Points).flatten)

/-- One pass of the body of `updateAndSendData`'s loop after a tick was
received: skip when not send-worthy; otherwise build the primary batch and
write it; on failure add it to the buffer and continue; on success log the
sent count, then drain the buffer into one combined batch and write that,
re-adding the pending batches if the retry write fails.  `k` counts the
writes issued so far (the store oracle's index); the result is the new
buffer, the new write count and the cycle's events. -/
def runCycle (env : Env) (hostname : String) (store : Nat → Bool) (k : Nat)
    (s : Snapshot) (buf : Buffer) : Buffer × Nat × List Event :=
  if shouldSend s then
    let bp := primaryBatch env hostname s
    if store k then
      let p := buf.Elements
      let retryBatch := drainBatch env p.1
      if store (k + 1) then
        (p.2, k + 2,
          [Event.cycleHost hostname, Event.writeAttempt bp,
           Event.logSent bp.Points.length, Event.writeAttempt retryBatch])
      else
        (p.2.Add p.1, k + 2,
          [Event.cycleHost hostname, Event.writeAttempt bp,
           Event.logSent bp.Points.length, Event.writeAttempt retryBatch,
           Event.errRetry])
    else
      (buf.Add [bp], k + 1,
        [Event.cycleHost hostname, Event.writeAttempt bp, Event.errPrimary])
  else
    (buf, k, [Event.noData])

/-- Resolution of one `select` over the ticker and the cancellation channel:
which channels are ready, and, when both are, which branch the runtime's
pseudo-random choice takes (`true` picks the ticker). -/
inductive SelectInput where
  | tickOnly
  | cancelOnly
  | both (tickChosen : Bool)
deriving DecidableEq, Repr

/-- The branch a `select` resolution takes. -/
inductive Branch where
  | tick
  | cancel
deriving DecidableEq, Repr

/-- Go `select` semantics over the two channels: with only one channel ready
its branch runs; with both ready the runtime's choice decides. -/
def selectBranch : SelectInput → Branch
  | SelectInput.tickOnly => Branch.tick
  | SelectInput.cancelOnly => Branch.cancel
  | SelectInput.both c => if c then Branch.tick else Branch.cancel

/-- Whether the cancellation channel is ready in a `select` resolution. -/
def cancelPending : SelectInput → Bool
  | SelectInput.tickOnly => false
  | SelectInput.cancelOnly => true
  | SelectInput.both _ => true

/-- The `for`/`select` loop of `updateAndSendData`: each iteration suspends on
the two channels; the cancel branch returns, the tick branch runs one cycle
on the `i`-th snapshot and continues.  The input list resolves the successive
selects; an exhausted list leaves the loop suspended with no further events. -/
def runLoop (env : Env) (hostname : String) (store : Nat → Bool)
    (snaps : Nat → Snapshot) :
    List SelectInput → Nat → Nat → Buffer → Buffer × List Event
  | [], _, _, buf => (buf, [])
  | s :: rest, i, k, buf =>
    match selectBranch s with
    | Branch.cancel => (buf, [])
    | Branch.tick =>
      let c := runCycle env hostname store k (snaps i) buf
      let r := runLoop env hostname store snaps rest (i + 1) c.2.1 c.1
      (r.1, c.2.2 ++ r.2)

/-- The hostname the loop uses: `os.Hostname()`'s value on success, the empty
string when resolution failed. -/
def hostnameOf : Except String String → String
  | Except.ok h => h
  | Except.error _ => ""

/-- `updateAndSendData`: resolve the hostname once, before the loop, logging a
resolution failure, then run the loop with that fixed hostname. -/
def updateAndSendData (env : Env) (hres : Except String String)
    (store : Nat → Bool) (snaps : Nat → Snapshot) (inputs : List SelectInput)
    (buf0 : Buffer) : Buffer × List Event :=
  let pre : List Event :=
    match hres with
    | Except.ok _ => []
    | Except.error _ => [Event.errHostname]
  let r := runLoop env (hostnameOf hres) store snaps inputs 0 0 buf0
  (r.1, pre ++ r.2)

/-- The influxdb configuration block the core consumes. -/
structure InfluxdbConfig where
  address : String
  username : String
  password : String
  db : String
  bufferSize : Nat
deriving DecidableEq, Repr

/-- The startup-fatal errors `Register` can return. -/
inductive RegisterError where
  | configErr
  | clientErr (msg : String)
  | pingErr (msg : String)
deriving DecidableEq, Repr

/-- Witness that the export loop goroutine was started: it owns a fresh retry
buffer of the configured capacity. -/
structure StartedLoop where
  buf : Buffer
deriving DecidableEq, Repr

/-- `Register`'s collaborators: the config lookup (`getConfig` type-tested
against `influxdbConfig`), HTTP client construction, and the single startup
ping. -/
structure RegisterEnv where
  getConfig : Option InfluxdbConfig
  newHTTPClient : InfluxdbConfig → Except String Unit
  ping : Except String (Nat × String)

/-- `Register`: abort on a missing config block, on a client-construction
error, or on a failed ping (each returned to the caller, no loop started);
otherwise create the buffer, start the loop goroutine and return nil. -/
def Register (env : RegisterEnv) : Except RegisterError StartedLoop :=
  match env.getConfig with
  | none => Except.error RegisterError.configErr
  | some cfg =>
    match env.newHTTPClient cfg with
    | Except.error e => Except.error (RegisterError.clientErr e)
    | Except.ok _ =>
      match env.ping with
      | Except.error e => Except.error (RegisterError.pingErr e)
      | Except.ok _ => Except.ok { buf := NewBuffer cfg.bufferSize }

/-- `Add` iterated over a sequence of calls. -/
def addAll (b : Buffer) (vss : List (List BatchPoints)) : Buffer :=
  vss.foldl Buffer.Add b

/-- Whether an event is a write issued to the store client. -/
def isWriteAttempt : Event → Bool
  | Event.writeAttempt _ => true
  | _ => false

/-- A concrete environment for evaluating the scheduler on sample inputs. -/
def envW : Env :=
  { db := "melody"
    counterPoints := fun _ _ cs => cs.map (fun c => { id := c })
    gaugePoints := fun _ _ gs => gs.map (fun g => { id := 100 + g })
    histogramPoints := fun _ _ hs => hs.map (fun x => { id := 200 + x }) }

/-- A send-worthy sample snapshot. -/
def snapW : Snapshot :=
  { Counters := [1, 2], Gauges := [5], Histograms := [9], Time := 42 }

/-- A sample snapshot with no counters and no gauges but with histograms. -/
def snapEmpty : Snapshot :=
  { Counters := [], Gauges := [], Histograms := [3, 4], Time := 7 }

/-- The sample metrics source: every tick returns `snapW`. -/
def snapsW : Nat → Snapshot := fun _ => snapW

/-- A store oracle accepting every write. -/
def storeAll : Nat → Bool := fun _ => true

/-- A sample failed batch held in the retry buffer. -/
def bpW1 : BatchPoints :=
  { database := "melody", precision := "s", points := [{ id := 7 }] }

/-- A second sample failed batch held in the retry buffer. -/
def bpW2 : BatchPoints :=
  { database := "melody", precision := "s", points := [{ id := 8 }, { id := 9 }] }

/-- A sample retry buffer holding two failed batches within capacity. -/
def bufW : Buffer := { size := 3, data := [bpW1, bpW2] }

/-- The primary batch `envW` builds from `snapW` for hostname `"host"`. -/
def pbW : BatchPoints :=
  { database := "melody", precision := "s",
    points := [{ id := 1 }, { id := 2 }, { id := 105 }, { id := 209 }] }

lemma foldl_addPoint (l : List Point) (bp : BatchPoints) :
    l.foldl BatchPoints.AddPoint bp = { bp with points := bp.points ++ l } := by
  induction l generalizing bp with
  | nil => simp
  | cons x xs ih => simp [BatchPoints.AddPoint, ih]

lemma runCycle_primary_failure (env : Env) (hn : String) (store : Nat → Bool)
    (k : Nat) (s : Snapshot) (buf : Buffer)
    (hsend : shouldSend s = true) (hfail : store k = false) :
    runCycle env hn store k s buf =
      (buf.Add [primaryBatch env hn s], k + 1,
       [Event.cycleHost hn, Event.writeAttempt (primaryBatch env hn s),
        Event.errPrimary]) := by
  simp [runCycle, hsend, hfail]

lemma runCycle_primary_success (env : Env) (hn : String) (store : Nat → Bool)
    (k : Nat) (s : Snapshot) (buf : Buffer)
    (hsend : shouldSend s = true) (hpri : store k = true) :
    runCycle env hn store k s buf =
      (if store (k + 1) then { size := buf.size, data := [] }
       else Buffer.Add { size := buf.size, data := [] } buf.data,
       k + 2,
       [Event.cycleHost hn, Event.writeAttempt (primaryBatch env hn s),
        Event.logSent (primaryBatch env hn s).Points.length,
        Event.writeAttempt (drainBatch env buf.data)] ++
       if store (k + 1) then [] else [Event.errRetry]) := by
  by_cases hr : store (k + 1) <;>
    simp [runCycle, hsend, hpri, hr, Buffer.Elements]

lemma add_empty_of_le (size : Nat) (pending : List BatchPoints)
    (h : pending.length ≤ size) :
    Buffer.Add { size := size, data := [] } pending =
      { size := size, data := pending } := by
  simp [Buffer.Add, Nat.sub_eq_zero_of_le h]

/-- C7: every batch built in the Exporting state holds exactly the converter
points, counters then gauges then histograms, built from the snapshot's
timestamp converted with `time.Unix(0, ·)` and the resolved hostname, and
carries the configured database name and second-level precision. -/
theorem batch_contents_order (env : Env) (hn : String) (s : Snapshot) :
    primaryBatch env hn s =
      { database := env.db, precision := "s",
        points :=
          env.counterPoints hn (timeUnix 0 s.Time) s.Counters ++
          env.gaugePoints hn (timeUnix 0 s.Time) s.Gauges ++
          env.histogramPoints hn (timeUnix 0 s.Time) s.Histograms } := by
  simp [primaryBatch, NewBatchPoints, foldl_addPoint, List.append_assoc]

/-- C3: a snapshot with zero counters and zero gauges is skipped entirely,
however many histograms it has: no write is attempted and the buffer is
unchanged; the send-worthiness predicate is exactly
`len(Counters) > 0 || len(Gauges) > 0`, with histograms irrelevant to it. -/
theorem skip_cycle_without_counters_or_gauges (env : Env) (hn : String)
    (store : Nat → Bool) (k : Nat) (s : Snapshot) (buf : Buffer)
    (hc : s.Counters = []) (hg : s.Gauges = []) :
    runCycle env hn store k s buf = (buf, k, [Event.noData]) ∧
    shouldSend s = false ∧
    (∀ hs : List HistogramSample, shouldSend { s with Histograms := hs } = false) ∧
    (∀ s' : Snapshot,
      shouldSend s' = (0 < s'.Counters.length || 0 < s'.Gauges.length)) := by
  have hss : shouldSend s = false := by simp [shouldSend, hc, hg]
  refine ⟨?_, hss, ?_, fun s' => rfl⟩
  · simp [runCycle, hss]
  · intro hs; simp [shouldSend, hc, hg]

/-- Witness for C3 at a concrete histograms-only snapshot. -/
theorem skip_cycle_without_counters_or_gauges_witness :
    runCycle envW "host" storeAll 0 snapEmpty (NewBuffer 2) =
      (NewBuffer 2, 0, [Event.noData]) :=
  (skip_cycle_without_counters_or_gauges envW "host" storeAll 0 snapEmpty
    (NewBuffer 2) rfl rfl).1

/-- C1: in a cycle whose primary write succeeds the scheduler drains the
retry buffer: one combined retry batch is written whose points are the
ordered concatenation of the points of the batches `Elements()` returns; a
successful retry write leaves the buffer empty, a failed one re-inserts the
very same pending batches (not the combined batch). -/
theorem retry_drain_on_primary_success (env : Env) (hn : String)
    (store : Nat → Bool) (k : Nat) (s : Snapshot) (buf : Buffer)
    (hsend : shouldSend s = true) (hpri : store k = true)
    (hinv : buf.data.length ≤ buf.size) :
    (drainBatch env buf.data).Points = (buf.data.map BatchPoints.Points).flatten ∧
    runCycle env hn store k s buf =
      (if store (k + 1) then { size := buf.size, data := [] }
       else { size := buf.size, data := buf.data },
       k + 2,
       [Event.cycleHost hn, Event.writeAttempt (primaryBatch env hn s),
        Event.logSent (primaryBatch env hn s).Points.length,
        Event.writeAttempt (drainBatch env buf.data)] ++
       if store (k + 1) then [] else [Event.errRetry]) := by
  constructor
  · simp [drainBatch, NewBatchPoints, BatchPoints.AddPoints, BatchPoints.Points]
  · rw [runCycle_primary_success env hn store k s buf hsend hpri,
      add_empty_of_le buf.size buf.data hinv]

/-- Witness for C1: primary write accepted, retry write refused; the two
pending batches are back in the buffer, not the combined batch. -/
theorem retry_drain_on_primary_success_witness :
    runCycle envW "host" (fun n => n == 0) 0 snapW bufW =
      ({ size := 3, data := [bpW1, bpW2] }, 2,
       [Event.cycleHost "host", Event.writeAttempt pbW, Event.logSent 4,
        Event.writeAttempt
          { database := "melody", precision := "s",
            points := [{ id := 7 }, { id := 8 }, { id := 9 }] },
        Event.errRetry]) :=
  ((retry_drain_on_primary_success envW "host" (fun n => n == 0) 0 snapW bufW
    rfl rfl (by decide)).2).trans (by decide)

/-- C6: in a cycle whose primary write succeeds, the sent-count the log
reports equals the number of points of the batch that was written. -/
theorem sent_count_matches_batch (env : Env) (hn : String)
    (store : Nat → Bool) (k : Nat) (s : Snapshot) (buf : Buffer)
    (hsend : shouldSend s = true) (hpri : store k = true) :
    (runCycle env hn store k s buf).2.2.take 3 =
      [Event.cycleHost hn, Event.writeAttempt (primaryBatch env hn s),
       Event.logSent ((primaryBatch env hn s).Points).length] := by
  rw [runCycle_primary_success env hn store k s buf hsend hpri]
  by_cases hr : store (k + 1) <;> simp [hr]

/-- Witness for C6 at a concrete snapshot and store. -/
theorem sent_count_matches_batch_witness :
    (runCycle envW "host" storeAll 0 snapW (NewBuffer 3)).2.2.take 3 =
      [Event.cycleHost "host", Event.writeAttempt (primaryBatch envW "host" snapW),
       Event.logSent ((primaryBatch envW "host" snapW).Points).length] :=
  sent_count_matches_batch envW "host" storeAll 0 snapW (NewBuffer 3) rfl rfl

/-- C10: after every successful primary write the retry write is issued
unconditionally — with an empty buffer it writes a batch of zero points —
and when that empty retry write fails, re-adding the empty pending
collection leaves the buffer unchanged. -/
theorem retry_write_unconditional (env : Env) (hn : String)
    (store : Nat → Bool) (k : Nat) (s : Snapshot) (size : Nat)
    (hsend : shouldSend s = true) (hpri : store k = true) :
    (∀ buf : Buffer,
      Event.writeAttempt (drainBatch env buf.data) ∈
        (runCycle env hn store k s buf).2.2) ∧
    (drainBatch env (NewBuffer size).data).Points = [] ∧
    (store (k + 1) = false →
      (runCycle env hn store k s (NewBuffer size)).1 = NewBuffer size) := by
  refine ⟨?_, ?_, ?_⟩
  · intro buf
    rw [runCycle_primary_success env hn store k s buf hsend hpri]
    by_cases hr : store (k + 1) <;> simp [hr]
  · simp [drainBatch, NewBuffer, NewBatchPoints, BatchPoints.AddPoints,
      BatchPoints.Points]
  · intro hr
    rw [runCycle_primary_success env hn store k s (NewBuffer size) hsend hpri]
    simp [hr, NewBuffer, Buffer.Add]

/-- Witness for C10: primary write accepted on an empty buffer, empty retry
write refused; the buffer is unchanged. -/
theorem retry_write_unconditional_witness :
    (runCycle envW "host" (fun n => n == 0) 0 snapW (NewBuffer 5)).1 =
      NewBuffer 5 :=
  (retry_write_unconditional envW "host" (fun n => n == 0) 0 snapW 5
    rfl rfl).2.2 rfl

lemma mem_drop_append_last {α : Type} (L : List α) (x : α) (m : Nat)
    (h : m ≤ L.length) : x ∈ (L ++ [x]).drop m := by
  rw [List.drop_append_eq_append_drop, Nat.sub_eq_zero_of_le h]
  simp

/-- C2: in a cycle whose primary write fails, the error is logged, exactly
the failed batch is pushed onto the retry buffer and appears in `Elements()`
on the immediately following call, no retry-drain write happens in that
cycle (the cycle's trace holds a single write), and the loop continues with
the remaining select resolutions. -/
theorem primary_failure_buffers_batch (env : Env) (hn : String)
    (store : Nat → Bool) (snaps : Nat → Snapshot) (rest : List SelectInput)
    (i k : Nat) (buf : Buffer)
    (hsend : shouldSend (snaps i) = true) (hfail : store k = false)
    (hpos : 1 ≤ buf.size) :
    runLoop env hn store snaps (SelectInput.tickOnly :: rest) i k buf =
      ((runLoop env hn store snaps rest (i + 1) (k + 1)
          (buf.Add [primaryBatch env hn (snaps i)])).1,
       [Event.cycleHost hn, Event.writeAttempt (primaryBatch env hn (snaps i)),
        Event.errPrimary] ++
       (runLoop env hn store snaps rest (i + 1) (k + 1)
          (buf.Add [primaryBatch env hn (snaps i)])).2) ∧
    primaryBatch env hn (snaps i) ∈
      ((buf.Add [primaryBatch env hn (snaps i)]).Elements).1 := by
  constructor
  · simp [runLoop, selectBranch,
      runCycle_primary_failure env hn store k (snaps i) buf hsend hfail]
  · simp only [Buffer.Add, Buffer.Elements]
    apply mem_drop_append_last
    simp only [List.length_append, List.length_cons, List.length_nil]
    omega

/-- Witness for C2: a store refusing every write; after the one tick the
failed batch sits alone in the buffer and a single write was attempted. -/
theorem primary_failure_buffers_batch_witness :
    runLoop envW "host" (fun _ => false) snapsW [SelectInput.tickOnly] 0 0
        (NewBuffer 2) =
      ({ size := 2, data := [pbW] },
       [Event.cycleHost "host", Event.writeAttempt pbW, Event.errPrimary]) :=
  ((primary_failure_buffers_batch envW "host" (fun _ => false) snapsW [] 0 0
    (NewBuffer 2) rfl rfl (by decide)).1).trans (by decide)

lemma rtake_append_distrib {α : Type} (S vs : List α) (n : Nat) :
    (S ++ vs).rtake n = S.rtake (n - vs.length) ++ vs.rtake n := by
  simp only [List.rtake_eq_reverse_take_reverse, List.reverse_append,
    List.take_append_eq_append_take, List.length_reverse]

lemma rtake_rtake {α : Type} (S : List α) (m n : Nat) :
    (S.rtake n).rtake m = S.rtake (min m n) := by
  simp [List.rtake_eq_reverse_take_reverse, List.take_take]

lemma rtake_append_rtake {α : Type} (S vs : List α) (n : Nat) :
    (S.rtake n ++ vs).rtake n = (S ++ vs).rtake n := by
  rw [rtake_append_distrib, rtake_append_distrib S vs n, rtake_rtake,
    Nat.min_eq_left (Nat.sub_le n vs.length)]

lemma add_data_rtake (b : Buffer) (vs : List BatchPoints) :
    (b.Add vs).data = (b.data ++ vs).rtake b.size := rfl

lemma addAll_data (size : Nat) (vss : List (List BatchPoints)) :
    ∀ S : List BatchPoints,
      (addAll { size := size, data := S.rtake size } vss).data =
        (S ++ vss.flatten).rtake size := by
  induction vss with
  | nil => intro S; simp [addAll]
  | cons vs vss ih =>
    intro S
    have hAdd : Buffer.Add { size := size, data := S.rtake size } vs =
        { size := size, data := (S ++ vs).rtake size } := by
      have := add_data_rtake { size := size, data := S.rtake size } vs
      simp only [rtake_append_rtake] at this
      exact Buffer.ext rfl this
    calc (addAll { size := size, data := S.rtake size } (vs :: vss)).data
        = (addAll (Buffer.Add { size := size, data := S.rtake size } vs) vss).data := rfl
      _ = (addAll { size := size, data := (S ++ vs).rtake size } vss).data := by rw [hAdd]
      _ = ((S ++ vs) ++ vss.flatten).rtake size := ih (S ++ vs)
      _ = (S ++ (vs :: vss).flatten).rtake size := by
          simp [List.append_assoc]

/-- C4: after any sequence of `Add` calls on a buffer of capacity `size`,
`Elements()` returns at most `size` batches, and exactly the newest `size`
of all batches ever added, in order — the oldest are evicted first. -/
theorem buffer_capacity_drop_oldest (size : Nat) (vss : List (List BatchPoints)) :
    ((addAll (NewBuffer size) vss).Elements).1.length ≤ size ∧
    ((addAll (NewBuffer size) vss).Elements).1 = vss.flatten.rtake size := by
  have h : (addAll (NewBuffer size) vss).data = vss.flatten.rtake size := by
    have := addAll_data size vss []
    simpa [NewBuffer] using this
  have hel : ((addAll (NewBuffer size) vss).Elements).1 =
      (addAll (NewBuffer size) vss).data := rfl
  refine ⟨?_, by rw [hel, h]⟩
  rw [hel, h]
  simp only [List.rtake, List.length_drop]
  omega

/-- C5 (amended): whenever an iteration's select takes the cancellation
branch, the loop returns at once — no export work, no events, buffer
untouched — whatever resolutions would have followed. -/
theorem cancel_branch_terminates_loop (env : Env) (hn : String)
    (store : Nat → Bool) (snaps : Nat → Snapshot) (s : SelectInput)
    (rest : List SelectInput) (i k : Nat) (buf : Buffer)
    (h : selectBranch s = Branch.cancel) :
    runLoop env hn store snaps (s :: rest) i k buf = (buf, []) := by
  simp only [runLoop, h]

/-- Witness for the amended C5: cancellation chosen on the first iteration
of a loop that still has a tick queued behind it. -/
theorem cancel_branch_terminates_loop_witness :
    runLoop envW "host" storeAll snapsW
        [SelectInput.cancelOnly, SelectInput.tickOnly] 0 0 (NewBuffer 3) =
      (NewBuffer 3, []) :=
  cancel_branch_terminates_loop envW "host" storeAll snapsW
    SelectInput.cancelOnly [SelectInput.tickOnly] 0 0 (NewBuffer 3) rfl

/-- Counterexample to C5 as stated: with a tick and the cancellation pending
simultaneously, Go's `select` may take the ticker branch (`both true`), and
the cycle then performs export work — here two writes — although the
cancellation signal had fired. -/
theorem cancel_pending_export_counterexample :
    cancelPending (SelectInput.both true) = true ∧
    (runLoop envW "host" storeAll snapsW [SelectInput.both true] 0 0
        (NewBuffer 3)).2.countP isWriteAttempt = 2 := by
  constructor
  · rfl
  · decide

lemma cycleHost_runCycle (env : Env) (hn : String) (store : Nat → Bool)
    (k : Nat) (s : Snapshot) (buf : Buffer) (h : String)
    (hmem : Event.cycleHost h ∈ (runCycle env hn store k s buf).2.2) :
    h = hn := by
  unfold runCycle at hmem
  by_cases hs : shouldSend s
  · by_cases hp : store k
    · by_cases hr : store (k + 1) <;> simp [hs, hp, hr] at hmem <;> exact hmem
    · simp [hs, hp] at hmem; exact hmem
  · simp [hs] at hmem

lemma cycleHost_runLoop (env : Env) (hn : String) (store : Nat → Bool)
    (snaps : Nat → Snapshot) (inputs : List SelectInput) :
    ∀ (i k : Nat) (buf : Buffer) (h : String),
      Event.cycleHost h ∈ (runLoop env hn store snaps inputs i k buf).2 →
        h = hn := by
  induction inputs with
  | nil => intro i k buf h hmem; simp [runLoop] at hmem
  | cons s rest ih =>
    intro i k buf h hmem
    rw [runLoop] at hmem
    cases hsb : selectBranch s <;> rw [hsb] at hmem
    · simp only [List.mem_append] at hmem
      rcases hmem with hmem | hmem
      · exact cycleHost_runCycle env hn store k (snaps i) buf h hmem
      · exact ih (i + 1) _ _ h hmem
    · simp at hmem

/-- C8: the hostname is resolved once, before the loop, and that one value is
the hostname of every cycle; when resolution fails the failure is logged and
the loop still runs every cycle, with the empty hostname. -/
theorem hostname_resolved_once (env : Env) (hres : Except String String)
    (store : Nat → Bool) (snaps : Nat → Snapshot) (inputs : List SelectInput)
    (buf0 : Buffer) :
    (∀ h, Event.cycleHost h ∈
        (updateAndSendData env hres store snaps inputs buf0).2 →
      h = hostnameOf hres) ∧
    (∀ e, hres = Except.error e →
      updateAndSendData env hres store snaps inputs buf0 =
        ((runLoop env "" store snaps inputs 0 0 buf0).1,
         Event.errHostname :: (runLoop env "" store snaps inputs 0 0 buf0).2)) := by
  constructor
  · intro h hmem
    unfold updateAndSendData at hmem
    cases hres with
    | ok hh =>
      simp only at hmem
      exact cycleHost_runLoop env (hostnameOf (Except.ok hh)) store snaps
        inputs 0 0 buf0 h (by simpa using hmem)
    | error e =>
      simp only [List.cons_append, List.nil_append, List.mem_cons] at hmem
      rcases hmem with hmem | hmem
      · cases hmem
      · exact cycleHost_runLoop env (hostnameOf (Except.error e)) store snaps
          inputs 0 0 buf0 h hmem
  · intro e he
    subst he
    rfl

/-- C9: `Register` returns an error and starts no loop exactly when startup
fails — missing configuration, client construction failure, or a failed
initial ping — and otherwise starts the loop (with a fresh buffer of the
configured capacity) and returns successfully. -/
theorem register_startup_errors (env : RegisterEnv) :
    ((∃ l, Register env = Except.ok l) ↔
      (∃ cfg u p, env.getConfig = some cfg ∧
        env.newHTTPClient cfg = Except.ok u ∧ env.ping = Except.ok p)) ∧
    (env.getConfig = none →
      Register env = Except.error RegisterError.configErr) ∧
    (∀ cfg e, env.getConfig = some cfg →
      env.newHTTPClient cfg = Except.error e →
      Register env = Except.error (RegisterError.clientErr e)) ∧
    (∀ cfg u e, env.getConfig = some cfg →
      env.newHTTPClient cfg = Except.ok u → env.ping = Except.error e →
      Register env = Except.error (RegisterError.pingErr e)) ∧
    (∀ cfg u p, env.getConfig = some cfg →
      env.newHTTPClient cfg = Except.ok u → env.ping = Except.ok p →
      Register env = Except.ok { buf := NewBuffer cfg.bufferSize }) := by
  refine ⟨⟨?_, ?_⟩, ?_, ?_, ?_, ?_⟩
  · rintro ⟨l, hl⟩
    cases hg : env.getConfig with
    | none => simp [Register, hg] at hl
    | some cfg =>
      cases hc : env.newHTTPClient cfg with
      | error e => simp [Register, hg, hc] at hl
      | ok u =>
        cases hp : env.ping with
        | error e => simp [Register, hg, hc, hp] at hl
        | ok p => exact ⟨cfg, u, p, rfl, hc, rfl⟩
  · rintro ⟨cfg, u, p, hg, hc, hp⟩
    exact ⟨{ buf := NewBuffer cfg.bufferSize }, by simp [Register, hg, hc, hp]⟩
  · intro hg; simp [Register, hg]
  · intro cfg e hg hc; simp [Register, hg, hc]
  · intro cfg u e hg hc hp; simp [Register, hg, hc, hp]
  · intro cfg u p hg hc hp; simp [Register, hg, hc, hp]

end Influxdb
